import Mathlib

/-!
Shallow embedding of the fla-zoo repository.

Part 1 embeds the two configuration classes of
src/flazoo/models/und/rwkv7/configuration_rwkv7.py
(`RWKV7VisionConfig.__init__` and `RWKV7VideoConfig.__init__`); only the
fields that participate in any construction-time logic are recorded, the
remaining constructor arguments are stored verbatim in Python and are
omitted here.

Part 2 embeds the weight-initialization helpers of
src/flazoo/helpers/linearizer.py.  Tensors are modelled as a shape plus a
flat list of integer entries, parameters as a tensor plus a
requires_grad flag, and each model as a record holding the attribute
paths the Python code actually dereferences plus a name-indexed list of
body (encoder) parameters as produced by named_parameters().
-/

/-- Entry of a hybrid-attention descriptor dictionary (the `attn` argument).
A field value of `Option.none` models the key being absent from the Python
dict.  For `window_size` the stored value itself may be Python `None`, so the
field is doubly optional: `some none` models the key present with value
`None`. -/
structure AttnDict where
  layers : Option (List Nat)
  num_heads : Option Nat
  num_kv_heads : Option Nat
  window_size : Option (Option Nat)
deriving DecidableEq, Repr

/-- Argument forms accepted for the `value_dim` constructor argument:
Python `None`, a single int, or a list of ints. -/
inductive ValueDimArg where
  | noneArg : ValueDimArg
  | scalar : Nat → ValueDimArg
  | list : List Nat → ValueDimArg
deriving DecidableEq, Repr

/-- Embeds the hybrid-attention validation block shared verbatim by
`RWKV7VisionConfig.__init__` (configuration_rwkv7.py lines 89-97) and
`RWKV7VideoConfig.__init__` (lines 220-228): a present descriptor must carry
a `layers` key and a `num_heads` key, then the dict is mutated in place,
defaulting `num_kv_heads` to the `num_heads` value and `window_size` to
`None`.  The returned value is the post-mutation state of the dict. -/
def attnNormalize : Option AttnDict → Except String (Option AttnDict)
  | Option.none => Except.ok Option.none
  | Option.some a =>
    match a.layers with
    | Option.none =>
      Except.error "Layer indices must be provided to initialize hybrid attention layers"
    | Option.some _ =>
      match a.num_heads with
      | Option.none =>
        Except.error "Number of heads must be provided to initialize hybrid attention layers"
      | Option.some nh =>
        Except.ok (Option.some { a with
          num_kv_heads := Option.some (a.num_kv_heads.getD nh),
          window_size := Option.some (a.window_size.getD Option.none) })

/-- Embeds the per-element loop of the list branch of the `value_dim`
validation (configuration_rwkv7.py lines 107-109 and 241-243): each element
must be at least `hidden_size` and an exact multiple of it; the first failing
element raises.  Python `v % hidden_size` raises ZeroDivisionError when
`hidden_size = 0`; Lean's `v % 0 = v` makes the divisibility check fail for
every `v` other than `0` there, which no theorem below observes (positivity of
`hidden_size` is assumed wherever success is claimed). -/
def checkValueDimElems (hidden_size : Nat) : List Nat → Except String Unit
  | [] => Except.ok ()
  | v :: rest =>
    if v < hidden_size then
      Except.error "value_dim must be greater than hidden_size"
    else if v % hidden_size ≠ 0 then
      Except.error "value_dim must be divisible by hidden_size"
    else
      checkValueDimElems hidden_size rest

/-- Embeds the `value_dim` normalization shared verbatim by
`RWKV7VisionConfig.__init__` (configuration_rwkv7.py lines 99-111) and
`RWKV7VideoConfig.__init__` (lines 233-245): `None` broadcasts `hidden_size`
over all layers, a scalar is validated and broadcast, a list is validated
element-wise and kept. -/
def valueDimNormalize (hidden_size num_hidden_layers : Nat) :
    ValueDimArg → Except String (List Nat)
  | ValueDimArg.noneArg => Except.ok (List.replicate num_hidden_layers hidden_size)
  | ValueDimArg.scalar v =>
    if v < hidden_size then
      Except.error "value_dim must be greater than hidden_size"
    else if v % hidden_size ≠ 0 then
      Except.error "value_dim must be divisible by hidden_size"
    else
      Except.ok (List.replicate num_hidden_layers v)
  | ValueDimArg.list vs =>
    if vs.length ≠ num_hidden_layers then
      Except.error "value_dim must have the same length as num_hidden_layers"
    else
      match checkValueDimElems hidden_size vs with
      | Except.error e => Except.error e
      | Except.ok _ => Except.ok vs

/-- Logic-relevant fields of a constructed `RWKV7VisionConfig`.  All other
constructor arguments are stored unchanged by the Python `__init__` and are
omitted from the embedding. -/
structure RWKV7VisionConfig where
  hidden_size : Nat
  num_hidden_layers : Nat
  train_scan_type : String
  test_scan_type : String
  value_dim : List Nat
  attn : Option AttnDict
  channel_mixer_dim : Nat
deriving DecidableEq, Repr

/-- Embeds `RWKV7VisionConfig.__init__` (configuration_rwkv7.py lines 11-120)
restricted to the arguments that participate in construction-time logic, in
the source's evaluation order: `test_scan_type` defaulting, hybrid-attention
validation and in-place mutation, `value_dim` validation and broadcasting,
`channel_mixer_dim` defaulting.  The second component of a successful result
is the post-construction state of the caller's `attn` dictionary, which the
Python code mutated in place and stored as `self.attn`. -/
def RWKV7VisionConfig.build (hidden_size num_hidden_layers : Nat)
    (attn : Option AttnDict) (value_dim : ValueDimArg)
    (channel_mixer_dim : Option Nat) (train_scan_type : String)
    (test_scan_type : Option String) :
    Except String (RWKV7VisionConfig × Option AttnDict) :=
  let tst := match test_scan_type with
    | Option.none => train_scan_type
    | Option.some t => t
  match attnNormalize attn with
  | Except.error e => Except.error e
  | Except.ok attnPost =>
    match valueDimNormalize hidden_size num_hidden_layers value_dim with
    | Except.error e => Except.error e
    | Except.ok vd =>
      let cmd := match channel_mixer_dim with
        | Option.none => 4 * hidden_size
        | Option.some c => c
      Except.ok ({ hidden_size := hidden_size, num_hidden_layers := num_hidden_layers,
                   train_scan_type := train_scan_type, test_scan_type := tst,
                   value_dim := vd, attn := attnPost, channel_mixer_dim := cmd }, attnPost)

/-- Logic-relevant fields of a constructed `RWKV7VideoConfig`. -/
structure RWKV7VideoConfig where
  hidden_size : Nat
  num_hidden_layers : Nat
  train_scan_type : String
  test_scan_type : String
  value_dim : List Nat
  attn : Option AttnDict
  channel_mixer_dim : Nat
  decoder_hidden_size : Nat
  decoder_channel_mixer_dim : Nat
deriving DecidableEq, Repr

/-- Embeds `RWKV7VideoConfig.__init__` (configuration_rwkv7.py lines 126-257)
restricted to the arguments that participate in construction-time logic, in
the source's evaluation order: `test_scan_type` defaulting, hybrid-attention
validation and in-place mutation, `value_dim` validation and broadcasting,
`channel_mixer_dim` and `decoder_channel_mixer_dim` defaulting.  The second
component of a successful result is the post-construction state of the
caller's `attn` dictionary. -/
def RWKV7VideoConfig.build (hidden_size num_hidden_layers : Nat)
    (attn : Option AttnDict) (value_dim : ValueDimArg)
    (channel_mixer_dim : Option Nat) (train_scan_type : String)
    (test_scan_type : Option String) (decoder_hidden_size : Nat)
    (decoder_channel_mixer_dim : Option Nat) :
    Except String (RWKV7VideoConfig × Option AttnDict) :=
  let tst := match test_scan_type with
    | Option.none => train_scan_type
    | Option.some t => t
  match attnNormalize attn with
  | Except.error e => Except.error e
  | Except.ok attnPost =>
    match valueDimNormalize hidden_size num_hidden_layers value_dim with
    | Except.error e => Except.error e
    | Except.ok vd =>
      let cmd := match channel_mixer_dim with
        | Option.none => 4 * hidden_size
        | Option.some c => c
      let dcmd := match decoder_channel_mixer_dim with
        | Option.none => 4 * decoder_hidden_size
        | Option.some c => c
      Except.ok ({ hidden_size := hidden_size, num_hidden_layers := num_hidden_layers,
                   train_scan_type := train_scan_type, test_scan_type := tst,
                   value_dim := vd, attn := attnPost, channel_mixer_dim := cmd,
                   decoder_hidden_size := decoder_hidden_size,
                   decoder_channel_mixer_dim := dcmd }, attnPost)

/-- Validity of a `value_dim` argument in the sense of the specification:
omitted, or a scalar at least `hidden_size` and divisible by it, or a list of
length `num_hidden_layers` whose every element satisfies those constraints. -/
def validValueDimArg (hidden_size num_hidden_layers : Nat) : ValueDimArg → Prop
  | ValueDimArg.noneArg => True
  | ValueDimArg.scalar v => hidden_size ≤ v ∧ hidden_size ∣ v
  | ValueDimArg.list vs =>
    vs.length = num_hidden_layers ∧ ∀ v ∈ vs, hidden_size ≤ v ∧ hidden_size ∣ v

instance (hs n : Nat) (vd : ValueDimArg) : Decidable (validValueDimArg hs n vd) := by
  cases vd <;> simp [validValueDimArg] <;> infer_instance

/-- Invalidity of a `value_dim` argument in the sense of the specification:
a scalar below `hidden_size` or not divisible by it, or a list of the wrong
length, or a list containing an offending element. -/
def invalidValueDimArg (hidden_size num_hidden_layers : Nat) : ValueDimArg → Prop
  | ValueDimArg.noneArg => False
  | ValueDimArg.scalar v => v < hidden_size ∨ ¬ hidden_size ∣ v
  | ValueDimArg.list vs =>
    vs.length ≠ num_hidden_layers ∨ ∃ v ∈ vs, v < hidden_size ∨ ¬ hidden_size ∣ v

instance (hs n : Nat) (vd : ValueDimArg) : Decidable (invalidValueDimArg hs n vd) := by
  cases vd <;> simp [invalidValueDimArg] <;> infer_instance

lemma checkValueDimElems_ok_of_valid {hs : Nat} (hpos : 0 < hs) :
    ∀ {vs : List Nat}, (∀ v ∈ vs, hs ≤ v ∧ hs ∣ v) →
      checkValueDimElems hs vs = Except.ok ()
  | [], _ => rfl
  | v :: rest, h => by
    have hv := h v (List.mem_cons_self v rest)
    have hmod : v % hs = 0 := Nat.dvd_iff_mod_eq_zero.mp hv.2
    have hnlt : ¬ v < hs := Nat.not_lt.mpr hv.1
    simp only [checkValueDimElems]
    rw [if_neg hnlt, if_neg (by simp [hmod])]
    exact checkValueDimElems_ok_of_valid hpos (fun x hx => h x (List.mem_cons_of_mem v hx))

lemma valueDimNormalize_ok_of_valid {hs n : Nat} {vd : ValueDimArg}
    (hpos : 0 < hs) (hv : validValueDimArg hs n vd) :
    ∃ l, valueDimNormalize hs n vd = Except.ok l ∧ l.length = n := by
  cases vd with
  | noneArg =>
    exact ⟨List.replicate n hs, rfl, List.length_replicate n hs⟩
  | scalar v =>
    obtain ⟨hle, hdvd⟩ := hv
    have hmod : v % hs = 0 := Nat.dvd_iff_mod_eq_zero.mp hdvd
    refine ⟨List.replicate n v, ?_, List.length_replicate n v⟩
    simp only [valueDimNormalize]
    rw [if_neg (Nat.not_lt.mpr hle), if_neg (by simp [hmod])]
  | list vs =>
    obtain ⟨hlen, helem⟩ := hv
    refine ⟨vs, ?_, hlen⟩
    simp only [valueDimNormalize]
    rw [if_neg (by simp [hlen]), checkValueDimElems_ok_of_valid hpos helem]

lemma checkValueDimElems_error_of_bad {hs : Nat} :
    ∀ {vs : List Nat}, (∃ v ∈ vs, v < hs ∨ ¬ hs ∣ v) →
      ∃ e, checkValueDimElems hs vs = Except.error e := by
  intro vs
  induction vs with
  | nil => rintro ⟨v, hv, -⟩; exact absurd hv (List.not_mem_nil v)
  | cons v rest ih =>
    rintro ⟨w, hw, hbad⟩
    unfold checkValueDimElems
    by_cases h1 : v < hs
    · exact ⟨_, by rw [if_pos h1]⟩
    · rw [if_neg h1]
      by_cases h2 : v % hs ≠ 0
      · exact ⟨_, by rw [if_pos h2]⟩
      · rw [if_neg h2]
        have hvok : ¬ (v < hs ∨ ¬ hs ∣ v) := by
          push_neg
          exact ⟨Nat.le_of_not_lt h1, Nat.dvd_of_mod_eq_zero (by omega)⟩
        rcases List.mem_cons.mp hw with rfl | hwrest
        · exact absurd hbad hvok
        · exact ih ⟨w, hwrest, hbad⟩

lemma valueDimNormalize_error_of_invalid {hs n : Nat} {vd : ValueDimArg}
    (hv : invalidValueDimArg hs n vd) :
    ∃ e, valueDimNormalize hs n vd = Except.error e := by
  cases vd with
  | noneArg => exact absurd hv id
  | scalar v =>
    simp only [valueDimNormalize]
    by_cases h1 : v < hs
    · exact ⟨_, by rw [if_pos h1]⟩
    · rw [if_neg h1]
      have hndvd : ¬ hs ∣ v := by
        rcases hv with h | h
        · exact absurd h h1
        · exact h
      have h2 : v % hs ≠ 0 := fun hmod => hndvd (Nat.dvd_of_mod_eq_zero hmod)
      exact ⟨_, by rw [if_pos h2]⟩
  | list vs =>
    simp only [valueDimNormalize]
    by_cases h1 : vs.length ≠ n
    · exact ⟨_, by rw [if_pos h1]⟩
    · rw [if_neg h1]
      have hbad : ∃ v ∈ vs, v < hs ∨ ¬ hs ∣ v := by
        rcases hv with h | h
        · exact absurd h h1
        · exact h
      obtain ⟨e, he⟩ := checkValueDimElems_error_of_bad hbad
      exact ⟨e, by rw [he]⟩

/-- C3: for every valid value_dim input (omitted, a scalar that is at least
hidden_size and divisible by it, or a list of length num_hidden_layers whose
every element satisfies those constraints) both configuration constructors
succeed and set value_dim to a per-layer list of length num_hidden_layers;
in particular, hidden_size = 768, num_hidden_layers = 12 and value_dim
omitted yields a list of length 12 with every element equal to 768.
Positivity of hidden_size is assumed, divisibility by a zero hidden size
being meaningless (Python would raise ZeroDivisionError there). -/
theorem C3_valid_value_dim_accepted :
    (∀ hs n vd, 0 < hs → validValueDimArg hs n vd →
      (∃ c p, RWKV7VisionConfig.build hs n Option.none vd Option.none "uni-scan" Option.none
          = Except.ok (c, p) ∧ c.value_dim.length = n) ∧
      (∃ c p, RWKV7VideoConfig.build hs n Option.none vd Option.none "uni-scan" Option.none
            256 Option.none
          = Except.ok (c, p) ∧ c.value_dim.length = n)) ∧
    (∃ c p, RWKV7VisionConfig.build 768 12 Option.none ValueDimArg.noneArg Option.none
        "uni-scan" Option.none
        = Except.ok (c, p) ∧ c.value_dim.length = 12 ∧ ∀ v ∈ c.value_dim, v = 768) ∧
    (∃ c p, RWKV7VideoConfig.build 768 12 Option.none ValueDimArg.noneArg Option.none
        "uni-scan" Option.none 256 Option.none
        = Except.ok (c, p) ∧ c.value_dim.length = 12 ∧ ∀ v ∈ c.value_dim, v = 768) := by
  refine ⟨?_, ?_, ?_⟩
  · intro hs n vd hpos hv
    obtain ⟨l, hl, hlen⟩ := valueDimNormalize_ok_of_valid hpos hv
    constructor
    · simp only [RWKV7VisionConfig.build, attnNormalize, hl]
      exact ⟨_, _, rfl, hlen⟩
    · simp only [RWKV7VideoConfig.build, attnNormalize, hl]
      exact ⟨_, _, rfl, hlen⟩
  · exact ⟨_, _, rfl, by decide, by decide⟩
  · exact ⟨_, _, rfl, by decide, by decide⟩

/-- Witness for C3 at a concrete valid scalar input. -/
theorem C3_valid_value_dim_accepted_witness :
    (0 < 768 ∧ validValueDimArg 768 12 (ValueDimArg.scalar 1536)) ∧
    (∃ c p, RWKV7VisionConfig.build 768 12 Option.none (ValueDimArg.scalar 1536) Option.none
        "uni-scan" Option.none = Except.ok (c, p) ∧ c.value_dim.length = 12) :=
  ⟨⟨by decide, by decide⟩,
   (C3_valid_value_dim_accepted.1 768 12 (ValueDimArg.scalar 1536)
     (by decide) (by decide)).1⟩

/-- C4: for every invalid value_dim input (a scalar below hidden_size or not
divisible by it, a list whose length differs from num_hidden_layers, or a
list containing an element below hidden_size or not divisible by it)
construction of either configuration class fails with a validation error. -/
theorem C4_invalid_value_dim_rejected :
    ∀ hs n vd, invalidValueDimArg hs n vd →
      (∃ e, RWKV7VisionConfig.build hs n Option.none vd Option.none "uni-scan" Option.none
          = Except.error e) ∧
      (∃ e, RWKV7VideoConfig.build hs n Option.none vd Option.none "uni-scan" Option.none
            256 Option.none
          = Except.error e) := by
  intro hs n vd hv
  obtain ⟨e, he⟩ := valueDimNormalize_error_of_invalid hv
  constructor
  · exact ⟨e, by simp [RWKV7VisionConfig.build, attnNormalize, he]⟩
  · exact ⟨e, by simp [RWKV7VideoConfig.build, attnNormalize, he]⟩

/-- Witness for C4 at a concrete invalid scalar input (100 is below 768). -/
theorem C4_invalid_value_dim_rejected_witness :
    invalidValueDimArg 768 12 (ValueDimArg.scalar 100) ∧
    (∃ e, RWKV7VisionConfig.build 768 12 Option.none (ValueDimArg.scalar 100) Option.none
        "uni-scan" Option.none = Except.error e) :=
  ⟨by decide, (C4_invalid_value_dim_rejected 768 12 (ValueDimArg.scalar 100) (by decide)).1⟩

lemma attnNormalize_error_of_no_layers {a : AttnDict} (hl : a.layers = Option.none) :
    attnNormalize (Option.some a)
      = Except.error "Layer indices must be provided to initialize hybrid attention layers" := by
  simp only [attnNormalize, hl]

lemma attnNormalize_error_of_no_num_heads {a : AttnDict} {ls : List Nat}
    (hl : a.layers = Option.some ls) (hn : a.num_heads = Option.none) :
    attnNormalize (Option.some a)
      = Except.error "Number of heads must be provided to initialize hybrid attention layers" := by
  simp only [attnNormalize, hl, hn]

/-- State of a hybrid-attention dictionary after the constructors' in-place
default filling (configuration_rwkv7.py lines 96-97 and 227-228). -/
def attnFillDefaults (a : AttnDict) (nh : Nat) : AttnDict :=
  AttnDict.mk a.layers a.num_heads
    (Option.some (a.num_kv_heads.getD nh))
    (Option.some (a.window_size.getD Option.none))

lemma attnNormalize_ok_of_keys {a : AttnDict} {ls : List Nat} {nh : Nat}
    (hl : a.layers = Option.some ls) (hn : a.num_heads = Option.some nh) :
    attnNormalize (Option.some a)
      = Except.ok (Option.some (attnFillDefaults a nh)) := by
  simp only [attnNormalize, hl, hn, attnFillDefaults]

/-- Vision configuration produced from an otherwise-default argument list and
an accepted hybrid-attention descriptor. -/
def visionCfgAttn (hs n : Nat) (tr : String) (a : AttnDict) (nh : Nat) : RWKV7VisionConfig :=
  RWKV7VisionConfig.mk hs n tr tr (List.replicate n hs)
    (Option.some (attnFillDefaults a nh)) (4 * hs)

/-- Video configuration produced from an otherwise-default argument list and
an accepted hybrid-attention descriptor. -/
def videoCfgAttn (hs n : Nat) (tr : String) (dhs : Nat) (a : AttnDict) (nh : Nat) :
    RWKV7VideoConfig :=
  RWKV7VideoConfig.mk hs n tr tr (List.replicate n hs)
    (Option.some (attnFillDefaults a nh)) (4 * hs) dhs (4 * dhs)

lemma vision_build_attn_ok {a : AttnDict} {ls : List Nat} {nh : Nat} (hs n : Nat) (tr : String)
    (hl : a.layers = Option.some ls) (hn : a.num_heads = Option.some nh) :
    RWKV7VisionConfig.build hs n (Option.some a) ValueDimArg.noneArg Option.none tr Option.none
      = Except.ok (visionCfgAttn hs n tr a nh, Option.some (attnFillDefaults a nh)) := by
  simp only [RWKV7VisionConfig.build, attnNormalize_ok_of_keys hl hn, valueDimNormalize,
    visionCfgAttn]

lemma video_build_attn_ok {a : AttnDict} {ls : List Nat} {nh : Nat} (hs n : Nat) (tr : String)
    (dhs : Nat) (hl : a.layers = Option.some ls) (hn : a.num_heads = Option.some nh) :
    RWKV7VideoConfig.build hs n (Option.some a) ValueDimArg.noneArg Option.none tr Option.none
        dhs Option.none
      = Except.ok (videoCfgAttn hs n tr dhs a nh, Option.some (attnFillDefaults a nh)) := by
  simp only [RWKV7VideoConfig.build, attnNormalize_ok_of_keys hl hn, valueDimNormalize,
    videoCfgAttn]

/-- C5: for either configuration class, a hybrid-attention descriptor lacking
the key layers, or lacking the key num_heads, makes construction fail with a
validation error; a descriptor carrying both keys is accepted (with an
otherwise-default argument list), and an absent num_kv_heads key is filled
with the num_heads value while an absent window_size key is filled with
Python None. -/
theorem C5_attn_descriptor_validation :
    (∀ hs n vd cmd tr tst dhs dcmd (a : AttnDict), a.layers = Option.none →
      (∃ e, RWKV7VisionConfig.build hs n (Option.some a) vd cmd tr tst = Except.error e) ∧
      (∃ e, RWKV7VideoConfig.build hs n (Option.some a) vd cmd tr tst dhs dcmd
          = Except.error e)) ∧
    (∀ hs n vd cmd tr tst dhs dcmd (a : AttnDict) ls,
      a.layers = Option.some ls → a.num_heads = Option.none →
      (∃ e, RWKV7VisionConfig.build hs n (Option.some a) vd cmd tr tst = Except.error e) ∧
      (∃ e, RWKV7VideoConfig.build hs n (Option.some a) vd cmd tr tst dhs dcmd
          = Except.error e)) ∧
    (∀ hs n tr dhs (a : AttnDict) ls nh,
      a.layers = Option.some ls → a.num_heads = Option.some nh →
      (∃ c a2, RWKV7VisionConfig.build hs n (Option.some a) ValueDimArg.noneArg Option.none
            tr Option.none
          = Except.ok (c, Option.some a2) ∧
          (a.num_kv_heads = Option.none → a2.num_kv_heads = Option.some nh) ∧
          (a.window_size = Option.none → a2.window_size = Option.some Option.none)) ∧
      (∃ c a2, RWKV7VideoConfig.build hs n (Option.some a) ValueDimArg.noneArg Option.none
            tr Option.none dhs Option.none
          = Except.ok (c, Option.some a2) ∧
          (a.num_kv_heads = Option.none → a2.num_kv_heads = Option.some nh) ∧
          (a.window_size = Option.none → a2.window_size = Option.some Option.none))) := by
  refine ⟨?_, ?_, ?_⟩
  · intro hs n vd cmd tr tst dhs dcmd a hl
    constructor
    · exact ⟨"Layer indices must be provided to initialize hybrid attention layers",
        by simp only [RWKV7VisionConfig.build, attnNormalize_error_of_no_layers hl]⟩
    · exact ⟨"Layer indices must be provided to initialize hybrid attention layers",
        by simp only [RWKV7VideoConfig.build, attnNormalize_error_of_no_layers hl]⟩
  · intro hs n vd cmd tr tst dhs dcmd a ls hl hn
    constructor
    · exact ⟨"Number of heads must be provided to initialize hybrid attention layers", by
        simp only [RWKV7VisionConfig.build, attnNormalize_error_of_no_num_heads hl hn]⟩
    · exact ⟨"Number of heads must be provided to initialize hybrid attention layers", by
        simp only [RWKV7VideoConfig.build, attnNormalize_error_of_no_num_heads hl hn]⟩
  · intro hs n tr dhs a ls nh hl hn
    constructor
    · refine ⟨visionCfgAttn hs n tr a nh, attnFillDefaults a nh,
        vision_build_attn_ok hs n tr hl hn, ?_, ?_⟩
      · intro h; simp [attnFillDefaults, h]
      · intro h; simp [attnFillDefaults, h]
    · refine ⟨videoCfgAttn hs n tr dhs a nh, attnFillDefaults a nh,
        video_build_attn_ok hs n tr dhs hl hn, ?_, ?_⟩
      · intro h; simp [attnFillDefaults, h]
      · intro h; simp [attnFillDefaults, h]

/-- Witness for C5 at concrete descriptors: one lacking layers, one lacking
num_heads, one carrying both with num_kv_heads and window_size absent. -/
theorem C5_attn_descriptor_validation_witness :
    (AttnDict.layers (AttnDict.mk Option.none (Option.some 8) Option.none Option.none)
        = Option.none ∧
      ∃ e, RWKV7VisionConfig.build 768 12
          (Option.some (AttnDict.mk Option.none (Option.some 8) Option.none Option.none))
          ValueDimArg.noneArg Option.none "uni-scan" Option.none = Except.error e) ∧
    (∃ e, RWKV7VisionConfig.build 768 12
        (Option.some (AttnDict.mk (Option.some [0, 1]) Option.none Option.none Option.none))
        ValueDimArg.noneArg Option.none "uni-scan" Option.none = Except.error e) ∧
    (∃ c a2, RWKV7VisionConfig.build 768 12
        (Option.some (AttnDict.mk (Option.some [0, 1]) (Option.some 8) Option.none Option.none))
        ValueDimArg.noneArg Option.none "uni-scan" Option.none
        = Except.ok (c, Option.some a2) ∧
        (Option.none = (Option.none : Option Nat) → a2.num_kv_heads = Option.some 8) ∧
        (Option.none = (Option.none : Option (Option Nat)) →
          a2.window_size = Option.some Option.none)) :=
  ⟨⟨rfl, (C5_attn_descriptor_validation.1 768 12 ValueDimArg.noneArg Option.none "uni-scan"
      Option.none 256 Option.none _ rfl).1⟩,
   (C5_attn_descriptor_validation.2.1 768 12 ValueDimArg.noneArg Option.none "uni-scan"
      Option.none 256 Option.none _ [0, 1] rfl rfl).1,
   (C5_attn_descriptor_validation.2.2 768 12 "uni-scan" 256 _ [0, 1] 8 rfl rfl).1⟩

/-- C6: omitting test_scan_type makes the constructed test_scan_type equal to
train_scan_type, and omitting channel_mixer_dim makes the constructed
channel_mixer_dim equal to 4 * hidden_size, for both configuration classes;
for the video configuration, omitting decoder_channel_mixer_dim makes it
equal to 4 * decoder_hidden_size. -/
theorem C6_omitted_fields_get_defaults :
    ∀ hs n tr dhs,
      (∃ c p, RWKV7VisionConfig.build hs n Option.none ValueDimArg.noneArg Option.none
          tr Option.none
          = Except.ok (c, p) ∧ c.test_scan_type = tr ∧ c.channel_mixer_dim = 4 * hs) ∧
      (∃ c p, RWKV7VideoConfig.build hs n Option.none ValueDimArg.noneArg Option.none
          tr Option.none dhs Option.none
          = Except.ok (c, p) ∧ c.test_scan_type = tr ∧ c.channel_mixer_dim = 4 * hs ∧
          c.decoder_channel_mixer_dim = 4 * dhs) := by
  intro hs n tr dhs
  exact ⟨⟨_, _, rfl, rfl, rfl⟩, ⟨_, _, rfl, rfl, rfl, rfl⟩⟩

/-- C9: both configuration constructors mutate the caller-supplied
hybrid-attention dictionary in place.  Mutation is modelled by the
constructors returning the post-call state of the caller's dictionary as the
second component: after a successful construction from a descriptor carrying
layers and num_heads, that post-state has a num_kv_heads key and a
window_size key present, and the stored attn field is that very post-state
(the Python code stores the mutated object itself, self.attn = attn). -/
theorem C9_attn_dict_mutated_in_place :
    ∀ (a : AttnDict) ls nh hs n tr dhs,
      a.layers = Option.some ls → a.num_heads = Option.some nh →
      (∃ c a2, RWKV7VisionConfig.build hs n (Option.some a) ValueDimArg.noneArg Option.none
            tr Option.none
          = Except.ok (c, Option.some a2) ∧
          (a2.num_kv_heads).isSome = true ∧ (a2.window_size).isSome = true ∧
          c.attn = Option.some a2) ∧
      (∃ c a2, RWKV7VideoConfig.build hs n (Option.some a) ValueDimArg.noneArg Option.none
            tr Option.none dhs Option.none
          = Except.ok (c, Option.some a2) ∧
          (a2.num_kv_heads).isSome = true ∧ (a2.window_size).isSome = true ∧
          c.attn = Option.some a2) := by
  intro a ls nh hs n tr dhs hl hn
  constructor
  · exact ⟨visionCfgAttn hs n tr a nh, attnFillDefaults a nh,
      vision_build_attn_ok hs n tr hl hn, rfl, rfl, rfl⟩
  · exact ⟨videoCfgAttn hs n tr dhs a nh, attnFillDefaults a nh,
      video_build_attn_ok hs n tr dhs hl hn, rfl, rfl, rfl⟩

/-- Witness for C9 at a concrete descriptor. -/
theorem C9_attn_dict_mutated_in_place_witness :
    (AttnDict.layers (AttnDict.mk (Option.some [2]) (Option.some 4) Option.none Option.none)
      = Option.some [2]) ∧
    (∃ c a2, RWKV7VisionConfig.build 768 12
        (Option.some (AttnDict.mk (Option.some [2]) (Option.some 4) Option.none Option.none))
        ValueDimArg.noneArg Option.none "uni-scan" Option.none
        = Except.ok (c, Option.some a2) ∧
        (a2.num_kv_heads).isSome = true ∧ (a2.window_size).isSome = true ∧
        c.attn = Option.some a2) :=
  ⟨rfl, (C9_attn_dict_mutated_in_place _ [2] 4 768 12 "uni-scan" 256 rfl rfl).1⟩

/-- PyTorch tensor modelled as a shape plus a flattened list of integer
entries. -/
structure Tensor where
  shape : List Nat
  entries : List Int
deriving DecidableEq, Repr

/-- Models tensor.unsqueeze(0): a leading dimension of extent 1 is added, the
flat data is unchanged. -/
def Tensor.unsqueeze0 (t : Tensor) : Tensor := Tensor.mk (1 :: t.shape) t.entries

/-- Models tensor[1:] on the leading dimension (linearizer.py line 359 drops
the CLIP class-token position before reshaping). -/
def Tensor.dropLeadingRow (t : Tensor) : Tensor :=
  match t.shape with
  | [] => t
  | n :: rest => Tensor.mk ((n - 1) :: rest) (t.entries.drop rest.prod)

/-- Model parameter: tensor data plus the requires_grad flag. -/
structure Param where
  data : Tensor
  requires_grad : Bool
deriving DecidableEq, Repr

/-- Models dst.data.copy_(src): the source values are copied into the
destination tensor in place, the requires_grad flag is untouched.  The model
is restricted to equal shapes (every call site in linearizer.py copies
between same-shaped tensors after its explicit layout adjustment); a
mismatch is a fatal error, matching the spec's statement that any shape
mismatch aborts the whole operation. -/
def Param.copyDataFrom (dst : Param) (src : Tensor) : Except String Param :=
  if src.shape = dst.data.shape then
    Except.ok (Param.mk src dst.requires_grad)
  else
    Except.error "RuntimeError: shape mismatch in copy_"

/-- Models torch.equal: same shape and same entries. -/
def torchEqual (a b : Tensor) : Bool := a == b

/-- Boolean substring test on character lists. -/
def listContainsSub (pat : List Char) : List Char → Bool
  | [] => pat.isEmpty
  | c :: rest => List.isPrefixOf pat (c :: rest) || listContainsSub pat rest

/-- Models the Python substring test (pat in s). -/
def strContains (pat s : String) : Bool := listContainsSub pat.toList s.toList

/-- Replaces the first occurrence of pat in s (helper for the modelled
parameter-copy utility's name translation). -/
def listReplaceFirst : List Char → List Char → List Char → List Char
  | [], _, _ => []
  | c :: rest, pat, rep =>
    if List.isPrefixOf pat (c :: rest) then rep ++ List.drop pat.length (c :: rest)
    else c :: listReplaceFirst rest pat rep

def strReplaceFirst (s pat rep : String) : String :=
  String.mk (listReplaceFirst s.toList pat.toList rep.toList)

/-- Per-parameter action of the modelled copy utility: a target parameter
whose name contains a mapping key receives the data of the source parameter
whose name is the target name with that (first matching) key replaced by the
mapped source key; unmatched parameters are left unchanged. -/
def icmEntry (model_b : List (String × Param)) (param_mapping : List (String × String))
    (np : String × Param) : String × Param :=
  match List.find? (fun kv => strContains kv.1 np.1) param_mapping with
  | Option.none => np
  | Option.some kv =>
    match List.find? (fun sp => sp.1 == strReplaceFirst np.1 kv.1 kv.2) model_b with
    | Option.none => np
    | Option.some sp => (np.1, Param.mk sp.2.data np.2.requires_grad)

/-- Modelled from the spec: the parameter-copy utility
initialize_custom_mapping, imported by linearizer.py from
flazoo.helpers.initializer, whose source file is not among the files under
verification (the name is shortened because the import would otherwise clash
with a reserved identifier).  Per the spec it is an external collaborator
"given two models and a mapping from target parameter name prefixes to
source parameter name prefixes; it is expected to locate matching submodules
by name suffix and copy tensor data"; it is modelled as mapping icmEntry
over the target's parameter list. -/
def init_custom_mapping (model_a model_b : List (String × Param))
    (param_mapping : List (String × String)) : List (String × Param) :=
  model_a.map (icmEntry model_b param_mapping)

/-- FLA vision und model: the attribute paths dereferenced by linearizer.py,
plus the name-indexed list of encoder body parameters; together these model
what named_parameters() yields.  classifier_bias is optional because
nn.Linear may carry bias=None. -/
structure FLAVisionModel where
  body : List (String × Param)
  patch_proj_weight : Param
  patch_proj_bias : Param
  position_embeddings : Param
  classifier_weight : Param
  classifier_bias : Option Param
deriving DecidableEq, Repr

def patchProjWeightName : String := "embeddings.patch_embeddings.projection.weight"

def patchProjBiasName : String := "embeddings.patch_embeddings.projection.bias"

def positionEmbeddingsName : String := "embeddings.position_embeddings"

def classifierWeightName : String := "classifier.weight"

def classifierBiasName : String := "classifier.bias"

/-- Embeds the freeze loop present in every procedure of linearizer.py
(for n, p in named_parameters(): if "channel_mixer" in n:
p.requires_grad_(False)), acting on one named parameter. -/
def freezeParam (n : String) (p : Param) : Param :=
  if strContains "channel_mixer" n then Param.mk p.data false else p

def freezeEntry (np : String × Param) : String × Param := (np.1, freezeParam np.1 np.2)

def freezeBody (l : List (String × Param)) : List (String × Param) := l.map freezeEntry

/-- The freeze loop over all named parameters of the target model; the
non-body parameters carry the fixed attribute names above, none of which
contains the substring channel_mixer. -/
def freezeChannelMixerAll (m : FLAVisionModel) : FLAVisionModel :=
  FLAVisionModel.mk (freezeBody m.body)
    (freezeParam patchProjWeightName m.patch_proj_weight)
    (freezeParam patchProjBiasName m.patch_proj_bias)
    (freezeParam positionEmbeddingsName m.position_embeddings)
    (freezeParam classifierWeightName m.classifier_weight)
    (m.classifier_bias.map (freezeParam classifierBiasName))

deriving instance DecidableEq for Except

/-- Return value of an initialization procedure: the mutated target alone,
or the pair of target and source when return_pretrained is set. -/
inductive InitResult (α : Type) (β : Type) where
  | single : α → InitResult α β
  | pair : α → β → InitResult α β
deriving DecidableEq, Repr

def InitResult.target {α β : Type} : InitResult α β → α
  | InitResult.single m => m
  | InitResult.pair m _ => m

/-- Embeds the init_embedding block shared in shape by linearizer.py lines
68-90, 262-286 and 348-374: copy the given (already layout-adjusted) source
tensors into the target's patch-projection weight, patch-projection bias and
position embeddings, then assert exact equality of each copied pair. -/
def initEmbeddingStep (m : FLAVisionModel) (srcW srcB srcPE : Tensor) :
    Except String FLAVisionModel :=
  match m.patch_proj_weight.copyDataFrom srcW with
  | Except.error e => Except.error e
  | Except.ok w =>
    match m.patch_proj_bias.copyDataFrom srcB with
    | Except.error e => Except.error e
    | Except.ok b =>
      match m.position_embeddings.copyDataFrom srcPE with
      | Except.error e => Except.error e
      | Except.ok pe =>
        if torchEqual w.data srcW && (torchEqual b.data srcB && torchEqual pe.data srcPE) then
          Except.ok { m with patch_proj_weight := w, patch_proj_bias := b,
                             position_embeddings := pe }
        else
          Except.error "AssertionError"

/-- Embeds the init_head block of linearizer.py lines 92-99 and 294-301:
copy the source classifier weight; copy the bias only when the source bias
is not None.  A source bias present while the target bias is None is the
Python AttributeError on None.data. -/
def initHeadStep (m : FLAVisionModel) (srcW : Tensor) (srcB : Option Tensor) :
    Except String FLAVisionModel :=
  match m.classifier_weight.copyDataFrom srcW with
  | Except.error e => Except.error e
  | Except.ok cw =>
    match srcB with
    | Option.none => Except.ok { m with classifier_weight := cw }
    | Option.some sb =>
      match m.classifier_bias with
      | Option.none => Except.error "AttributeError: NoneType object has no attribute data"
      | Option.some db =>
        match db.copyDataFrom sb with
        | Except.error e => Except.error e
        | Except.ok nb =>
          Except.ok { m with classifier_weight := cw, classifier_bias := Option.some nb }

/-- Stage shared by all five procedures: the parameter transfer under a
name mapping (the initialize_custom_mapping call on the target and source
bodies). -/
def transferStage (fla : FLAVisionModel) (srcBody : List (String × Param))
    (M : List (String × String)) : FLAVisionModel :=
  { fla with body := init_custom_mapping fla.body srcBody M }

/-- Stage shared by all five procedures: the conditional freeze (if not
train_mlp: set requires_grad to False on every channel_mixer parameter). -/
def freezeStage (m : FLAVisionModel) (train_mlp : Bool) : FLAVisionModel :=
  if train_mlp then m else freezeChannelMixerAll m

/-- Parameter mapping of init_from_fla_vision_und (linearizer.py lines 46-55). -/
def flaVisionUndMapping : List (String × String) :=
  [("attn.q_proj", "attn.q_proj"), ("attn.k_proj", "attn.k_proj"),
   ("attn.v_proj", "attn.v_proj"), ("attn.o_proj", "attn.o_proj"),
   ("ln_1", "ln_1"), ("ln_2", "ln_2"),
   ("channel_mixer.net.0", "channel_mixer.net.0"),
   ("channel_mixer.net.2", "channel_mixer.net.2")]

/-- Embeds init_from_fla_vision_und (linearizer.py lines 22-104): parameter
transfer under the mapping, freeze when train_mlp is false, embedding copy
when init_embedding, head copy when init_head, then the flag-dependent
return shape. -/
def init_from_fla_vision_und (fla_model another_fla_model : FLAVisionModel)
    (train_mlp init_embedding init_head return_pretrained : Bool) :
    Except String (InitResult FLAVisionModel FLAVisionModel) :=
  let m2 := freezeStage
    (transferStage fla_model another_fla_model.body flaVisionUndMapping) train_mlp
  match (if init_embedding then
      initEmbeddingStep m2 another_fla_model.patch_proj_weight.data
        another_fla_model.patch_proj_bias.data another_fla_model.position_embeddings.data
    else Except.ok m2) with
  | Except.error e => Except.error e
  | Except.ok m3 =>
    match (if init_head then
        initHeadStep m3 another_fla_model.classifier_weight.data
          (another_fla_model.classifier_bias.map (fun p => p.data))
      else Except.ok m3) with
    | Except.error e => Except.error e
    | Except.ok m4 =>
      if return_pretrained then Except.ok (InitResult.pair m4 another_fla_model)
      else Except.ok (InitResult.single m4)

/-- Loaded DINOv2 checkpoint: linearizer.py dereferences only the body
parameters; the embedding attributes exist on the real checkpoint but are
never read by the procedure. -/
structure DinoModel where
  body : List (String × Param)
  patch_proj_weight : Param
  patch_proj_bias : Param
  position_embeddings : Param
deriving DecidableEq, Repr

/-- Parameter mapping of init_from_dino2_base_p14 (linearizer.py lines 133-142). -/
def dinoBaseMapping : List (String × String) :=
  [("attn.q_proj", "attention.attention.query"),
   ("attn.k_proj", "attention.attention.key"),
   ("attn.v_proj", "attention.attention.value"),
   ("attn.o_proj", "attention.output.dense"),
   ("ln_1", "norm1"), ("ln_2", "norm2"),
   ("channel_mixer.net.0", "mlp.fc1"), ("channel_mixer.net.2", "mlp.fc2")]

/-- Parameter mapping of init_from_dino2_small_p14 (linearizer.py lines 188-197). -/
def dinoSmallMapping : List (String × String) :=
  [("attn.q_proj", "attention.attention.query"),
   ("attn.k_proj", "attention.attention.key"),
   ("attn.v_proj", "attention.attention.value"),
   ("attn.o_proj", "attention.output.dense"),
   ("ln_1", "norm1"), ("ln_2", "norm2"),
   ("channel_mixer.net.0", "mlp.fc1"), ("channel_mixer.net.2", "mlp.fc2")]

/-- Embeds init_from_dino2_base_p14 (linearizer.py lines 108-161).  The
checkpoint load AutoModel.from_pretrained(dino_model) is modelled by passing
the loaded source model directly.  The init_embedding argument is accepted
but never read by the Python body. -/
def init_from_dino2_base_p14 (fla_model : FLAVisionModel) (dino : DinoModel)
    (train_mlp init_embedding return_pretrained : Bool) :
    Except String (InitResult FLAVisionModel DinoModel) :=
  let m2 := freezeStage (transferStage fla_model dino.body dinoBaseMapping) train_mlp
  if return_pretrained then Except.ok (InitResult.pair m2 dino)
  else Except.ok (InitResult.single m2)

/-- Embeds init_from_dino2_small_p14 (linearizer.py lines 164-216), textually
identical to the base variant apart from the default checkpoint name. -/
def init_from_dino2_small_p14 (fla_model : FLAVisionModel) (dino : DinoModel)
    (train_mlp init_embedding return_pretrained : Bool) :
    Except String (InitResult FLAVisionModel DinoModel) :=
  let m2 := freezeStage (transferStage fla_model dino.body dinoSmallMapping) train_mlp
  if return_pretrained then Except.ok (InitResult.pair m2 dino)
  else Except.ok (InitResult.single m2)

/-- Loaded SigLIP2 vision component: the attribute paths dereferenced by
init_from_siglip2_base_p16_224 (linearizer.py lines 241-301). -/
structure SiglipModel where
  body : List (String × Param)
  patch_embedding_weight : Param
  patch_embedding_bias : Param
  position_embedding_weight : Param
  classifier_weight : Param
  classifier_bias : Option Param
deriving DecidableEq, Repr

/-- Parameter mapping of init_from_siglip2_base_p16_224 (linearizer.py lines
244-253). -/
def siglipMapping : List (String × String) :=
  [("attn.q_proj", "self_attn.q_proj"), ("attn.k_proj", "self_attn.k_proj"),
   ("attn.v_proj", "self_attn.v_proj"), ("attn.o_proj", "self_attn.out_proj"),
   ("ln_1", "layer_norm1"), ("ln_2", "layer_norm2"),
   ("channel_mixer.net.0", "mlp.fc1"), ("channel_mixer.net.2", "mlp.fc2")]

/-- Embeds init_from_siglip2_base_p16_224 (linearizer.py lines 218-306), with
the source-specific layout adjustment: the position embedding table gains a
leading batch dimension via unsqueeze(0). -/
def init_from_siglip2_base_p16_224 (fla_model : FLAVisionModel) (siglip : SiglipModel)
    (train_mlp init_embedding init_head return_pretrained : Bool) :
    Except String (InitResult FLAVisionModel SiglipModel) :=
  let m1 := transferStage fla_model siglip.body siglipMapping
  match (if init_embedding then
      initEmbeddingStep m1 siglip.patch_embedding_weight.data
        siglip.patch_embedding_bias.data
        (Tensor.unsqueeze0 siglip.position_embedding_weight.data)
    else Except.ok m1) with
  | Except.error e => Except.error e
  | Except.ok m2 =>
    let m3 := freezeStage m2 train_mlp
    match (if init_head then
        initHeadStep m3 siglip.classifier_weight.data
          (siglip.classifier_bias.map (fun p => p.data))
      else Except.ok m3) with
    | Except.error e => Except.error e
    | Except.ok m4 =>
      if return_pretrained then Except.ok (InitResult.pair m4 siglip)
      else Except.ok (InitResult.single m4)

/-- Loaded CLIP vision component: the attribute paths dereferenced by
init_from_clip_base_p16_224 (linearizer.py lines 329-374). -/
structure ClipModel where
  body : List (String × Param)
  patch_embedding_weight : Param
  patch_embedding_bias : Param
  position_embedding_weight : Param
deriving DecidableEq, Repr

/-- Parameter mapping of init_from_clip_base_p16_224 (linearizer.py lines
331-340). -/
def clipMapping : List (String × String) :=
  [("attn.q_proj", "self_attn.q_proj"), ("attn.k_proj", "self_attn.k_proj"),
   ("attn.v_proj", "self_attn.v_proj"), ("attn.o_proj", "self_attn.out_proj"),
   ("ln_1", "layer_norm1"), ("ln_2", "layer_norm2"),
   ("channel_mixer.net.0", "mlp.fc1"), ("channel_mixer.net.2", "mlp.fc2")]

/-- Embeds init_from_clip_base_p16_224 (linearizer.py lines 308-385), with
the source-specific layout adjustment: the position embedding table drops
its leading class-token row and gains a leading batch dimension. -/
def init_from_clip_base_p16_224 (fla_model : FLAVisionModel) (clip : ClipModel)
    (train_mlp init_embedding return_pretrained : Bool) :
    Except String (InitResult FLAVisionModel ClipModel) :=
  let m1 := transferStage fla_model clip.body clipMapping
  match (if init_embedding then
      initEmbeddingStep m1 clip.patch_embedding_weight.data
        clip.patch_embedding_bias.data
        (Tensor.unsqueeze0 (Tensor.dropLeadingRow clip.position_embedding_weight.data))
    else Except.ok m1) with
  | Except.error e => Except.error e
  | Except.ok m2 =>
    let m3 := freezeStage m2 train_mlp
    if return_pretrained then Except.ok (InitResult.pair m3 clip)
    else Except.ok (InitResult.single m3)

lemma copyDataFrom_ok {dst p : Param} {src : Tensor}
    (h : dst.copyDataFrom src = Except.ok p) :
    p.data = src ∧ p.requires_grad = dst.requires_grad := by
  unfold Param.copyDataFrom at h
  split at h
  · injection h with h
    subst h
    exact ⟨rfl, rfl⟩
  · exact Except.noConfusion h

lemma initEmbeddingStep_ok {m r : FLAVisionModel} {srcW srcB srcPE : Tensor}
    (h : initEmbeddingStep m srcW srcB srcPE = Except.ok r) :
    r.body = m.body ∧ r.classifier_weight = m.classifier_weight ∧
    r.classifier_bias = m.classifier_bias := by
  unfold initEmbeddingStep at h
  split at h
  · exact Except.noConfusion h
  · split at h
    · exact Except.noConfusion h
    · split at h
      · exact Except.noConfusion h
      · split at h
        · injection h with h
          subst h
          exact ⟨rfl, rfl, rfl⟩
        · exact Except.noConfusion h

lemma initEmbeddingStep_ok_emb {m r : FLAVisionModel} {srcW srcB srcPE : Tensor}
    (h : initEmbeddingStep m srcW srcB srcPE = Except.ok r) :
    r.patch_proj_weight.data = srcW ∧ r.patch_proj_bias.data = srcB ∧
    r.position_embeddings.data = srcPE := by
  unfold initEmbeddingStep at h
  split at h
  · exact Except.noConfusion h
  · rename_i w hw
    split at h
    · exact Except.noConfusion h
    · rename_i b hb
      split at h
      · exact Except.noConfusion h
      · rename_i pe hpe
        split at h
        · injection h with h
          subst h
          exact ⟨(copyDataFrom_ok hw).1, (copyDataFrom_ok hb).1, (copyDataFrom_ok hpe).1⟩
        · exact Except.noConfusion h

lemma initHeadStep_ok {m r : FLAVisionModel} {srcW : Tensor} {srcB : Option Tensor}
    (h : initHeadStep m srcW srcB = Except.ok r) :
    r.body = m.body ∧ r.classifier_weight.data = srcW ∧
    (srcB = Option.none → r.classifier_bias = m.classifier_bias) := by
  unfold initHeadStep at h
  split at h
  · exact Except.noConfusion h
  · rename_i cw hcw
    split at h
    · injection h with h
      subst h
      exact ⟨rfl, (copyDataFrom_ok hcw).1, fun _ => rfl⟩
    · rename_i sb
      split at h
      · exact Except.noConfusion h
      · rename_i db
        split at h
        · exact Except.noConfusion h
        · rename_i nb hnb
          injection h with h
          subst h
          refine ⟨rfl, (copyDataFrom_ok hcw).1, ?_⟩
          intro hnone
          exact Option.noConfusion hnone

lemma freezeParam_data (n : String) (p : Param) : (freezeParam n p).data = p.data := by
  unfold freezeParam
  split <;> rfl

lemma freezeParam_not (n : String) (p : Param)
    (h : strContains "channel_mixer" n = false) : freezeParam n p = p := by
  simp [freezeParam, h]

lemma freezeEntry_fst (np : String × Param) : (freezeEntry np).1 = np.1 := rfl

lemma freezeEntry_rg_of_contains {np : String × Param}
    (h : strContains "channel_mixer" np.1 = true) :
    (freezeEntry np).2.requires_grad = false := by
  simp [freezeEntry, freezeParam, h]

lemma freezeAll_body (m : FLAVisionModel) :
    (freezeChannelMixerAll m).body = freezeBody m.body := rfl

lemma freezeAll_patch_proj_weight (m : FLAVisionModel) :
    (freezeChannelMixerAll m).patch_proj_weight = m.patch_proj_weight := by
  show freezeParam patchProjWeightName m.patch_proj_weight = m.patch_proj_weight
  exact freezeParam_not patchProjWeightName _ (by decide)

lemma freezeAll_patch_proj_bias (m : FLAVisionModel) :
    (freezeChannelMixerAll m).patch_proj_bias = m.patch_proj_bias := by
  show freezeParam patchProjBiasName m.patch_proj_bias = m.patch_proj_bias
  exact freezeParam_not patchProjBiasName _ (by decide)

lemma freezeAll_position_embeddings (m : FLAVisionModel) :
    (freezeChannelMixerAll m).position_embeddings = m.position_embeddings := by
  show freezeParam positionEmbeddingsName m.position_embeddings = m.position_embeddings
  exact freezeParam_not positionEmbeddingsName _ (by decide)

lemma freezeAll_classifier_weight (m : FLAVisionModel) :
    (freezeChannelMixerAll m).classifier_weight = m.classifier_weight := by
  show freezeParam classifierWeightName m.classifier_weight = m.classifier_weight
  exact freezeParam_not classifierWeightName _ (by decide)

lemma freezeAll_classifier_bias (m : FLAVisionModel) :
    (freezeChannelMixerAll m).classifier_bias = m.classifier_bias := by
  show m.classifier_bias.map (freezeParam classifierBiasName) = m.classifier_bias
  cases m.classifier_bias with
  | none => rfl
  | some b => simp [freezeParam_not classifierBiasName b (by decide)]

lemma icmEntry_fst (b : List (String × Param)) (M : List (String × String))
    (np : String × Param) : (icmEntry b M np).1 = np.1 := by
  unfold icmEntry
  split
  · rfl
  · split
    · rfl
    · rfl

lemma icmEntry_rg (b : List (String × Param)) (M : List (String × String))
    (np : String × Param) :
    (icmEntry b M np).2.requires_grad = np.2.requires_grad := by
  unfold icmEntry
  split
  · rfl
  · split
    · rfl
    · rfl

/-- Relation between a model body before an initialization call and after:
names are preserved position-wise, and every parameter whose name contains
channel_mixer ends with requires_grad equal to train_mlp AND its previous
flag, i.e. unchanged when train_mlp is true and disabled when train_mlp is
false. -/
def bodyGradSpec (pre post : List (String × Param)) (train_mlp : Bool) : Prop :=
  post.length = pre.length ∧
  ∀ i (hpost : i < post.length) (hpre : i < pre.length),
    (post.get ⟨i, hpost⟩).1 = (pre.get ⟨i, hpre⟩).1 ∧
    (strContains "channel_mixer" (pre.get ⟨i, hpre⟩).1 = true →
      (post.get ⟨i, hpost⟩).2.requires_grad
        = (train_mlp && (pre.get ⟨i, hpre⟩).2.requires_grad))

lemma bodyGradSpec_icm (pre srcB : List (String × Param)) (M : List (String × String)) :
    bodyGradSpec pre (init_custom_mapping pre srcB M) true := by
  unfold bodyGradSpec init_custom_mapping
  refine ⟨by simp, ?_⟩
  intro i hpost hpre
  have hmap : (pre.map (icmEntry srcB M)).get ⟨i, hpost⟩
      = icmEntry srcB M (pre.get ⟨i, hpre⟩) := by
    simp
  rw [hmap]
  exact ⟨icmEntry_fst _ _ _, fun _ => by rw [icmEntry_rg]; simp⟩

lemma bodyGradSpec_freeze_icm (pre srcB : List (String × Param))
    (M : List (String × String)) :
    bodyGradSpec pre (freezeBody (init_custom_mapping pre srcB M)) false := by
  unfold bodyGradSpec freezeBody init_custom_mapping
  refine ⟨by simp, ?_⟩
  intro i hpost hpre
  have hmap : ((pre.map (icmEntry srcB M)).map freezeEntry).get ⟨i, hpost⟩
      = freezeEntry (icmEntry srcB M (pre.get ⟨i, hpre⟩)) := by
    simp
  rw [hmap]
  constructor
  · rw [freezeEntry_fst]
    exact icmEntry_fst _ _ _
  · intro hc
    rw [freezeEntry_rg_of_contains (by rw [icmEntry_fst]; exact hc)]
    simp

lemma bodyGradSpec_ite (pre srcB : List (String × Param)) (M : List (String × String))
    (tml : Bool) :
    bodyGradSpec pre
      (if tml then init_custom_mapping pre srcB M
       else freezeBody (init_custom_mapping pre srcB M)) tml := by
  cases tml
  · exact bodyGradSpec_freeze_icm pre srcB M
  · exact bodyGradSpec_icm pre srcB M

/-- Name-and-data view of a body parameter list, forgetting the
requires_grad flags. -/
def bodyDataView (l : List (String × Param)) : List (String × Tensor) :=
  l.map (fun np => (np.1, np.2.data))

lemma bodyDataView_freezeBody (l : List (String × Param)) :
    bodyDataView (freezeBody l) = bodyDataView l := by
  induction l with
  | nil => rfl
  | cons np rest ih =>
    simp only [freezeBody, List.map_cons, bodyDataView] at ih ⊢
    rw [ih]
    simp [freezeEntry, freezeParam_data]

lemma freezeStage_body (m : FLAVisionModel) (tml : Bool) :
    (freezeStage m tml).body = if tml then m.body else freezeBody m.body := by
  cases tml <;> rfl

lemma freezeStage_patch_proj_weight (m : FLAVisionModel) (tml : Bool) :
    (freezeStage m tml).patch_proj_weight = m.patch_proj_weight := by
  cases tml
  · exact freezeAll_patch_proj_weight m
  · rfl

lemma freezeStage_patch_proj_bias (m : FLAVisionModel) (tml : Bool) :
    (freezeStage m tml).patch_proj_bias = m.patch_proj_bias := by
  cases tml
  · exact freezeAll_patch_proj_bias m
  · rfl

lemma freezeStage_position_embeddings (m : FLAVisionModel) (tml : Bool) :
    (freezeStage m tml).position_embeddings = m.position_embeddings := by
  cases tml
  · exact freezeAll_position_embeddings m
  · rfl

lemma freezeStage_classifier_weight (m : FLAVisionModel) (tml : Bool) :
    (freezeStage m tml).classifier_weight = m.classifier_weight := by
  cases tml
  · exact freezeAll_classifier_weight m
  · rfl

lemma freezeStage_classifier_bias (m : FLAVisionModel) (tml : Bool) :
    (freezeStage m tml).classifier_bias = m.classifier_bias := by
  cases tml
  · exact freezeAll_classifier_bias m
  · rfl

lemma fla_und_ok {fla src : FLAVisionModel} {tml ie ih rp : Bool}
    {r : InitResult FLAVisionModel FLAVisionModel}
    (h : init_from_fla_vision_und fla src tml ie ih rp = Except.ok r) :
    ∃ m4 : FLAVisionModel,
      ((rp = true ∧ r = InitResult.pair m4 src) ∨ (rp = false ∧ r = InitResult.single m4)) ∧
      m4.body = (if tml then init_custom_mapping fla.body src.body flaVisionUndMapping
                 else freezeBody (init_custom_mapping fla.body src.body flaVisionUndMapping)) ∧
      (src.classifier_bias = Option.none → m4.classifier_bias = fla.classifier_bias) ∧
      (ih = true → m4.classifier_weight.data = src.classifier_weight.data) := by
  simp only [init_from_fla_vision_und] at h
  split at h
  · exact Except.noConfusion h
  · rename_i m3 hm3
    split at h
    · exact Except.noConfusion h
    · rename_i m4 hm4
      have h3 : m3.body = (freezeStage (transferStage fla src.body flaVisionUndMapping) tml).body
          ∧ m3.classifier_weight
            = (freezeStage (transferStage fla src.body flaVisionUndMapping) tml).classifier_weight
          ∧ m3.classifier_bias
            = (freezeStage (transferStage fla src.body flaVisionUndMapping) tml).classifier_bias := by
        cases ie with
        | false =>
          rw [if_neg Bool.false_ne_true] at hm3
          injection hm3 with hm3
          subst hm3
          exact ⟨rfl, rfl, rfl⟩
        | true =>
          rw [if_pos rfl] at hm3
          exact initEmbeddingStep_ok hm3
      have h4 : m4.body = m3.body
          ∧ (src.classifier_bias = Option.none → m4.classifier_bias = m3.classifier_bias)
          ∧ (ih = true → m4.classifier_weight.data = src.classifier_weight.data) := by
        cases ih with
        | false =>
          rw [if_neg Bool.false_ne_true] at hm4
          injection hm4 with hm4
          subst hm4
          exact ⟨rfl, fun _ => rfl, fun hc => Bool.noConfusion hc⟩
        | true =>
          rw [if_pos rfl] at hm4
          obtain ⟨hb, hw, hbias⟩ := initHeadStep_ok hm4
          exact ⟨hb, fun hnone => hbias (by rw [hnone]; rfl), fun _ => hw⟩
      refine ⟨m4, ?_, ?_, ?_, ?_⟩
      · cases rp with
        | false =>
          rw [if_neg Bool.false_ne_true] at h
          injection h with h
          exact Or.inr ⟨rfl, h.symm⟩
        | true =>
          rw [if_pos rfl] at h
          injection h with h
          exact Or.inl ⟨rfl, h.symm⟩
      · rw [h4.1, h3.1, freezeStage_body]
        cases tml <;> rfl
      · intro hnone
        rw [h4.2.1 hnone, h3.2.2, freezeStage_classifier_bias]
        rfl
      · exact h4.2.2

lemma dino_base_ok {fla : FLAVisionModel} {dino : DinoModel} {tml ie rp : Bool}
    {r : InitResult FLAVisionModel DinoModel}
    (h : init_from_dino2_base_p14 fla dino tml ie rp = Except.ok r) :
    ∃ m2 : FLAVisionModel,
      ((rp = true ∧ r = InitResult.pair m2 dino) ∨ (rp = false ∧ r = InitResult.single m2)) ∧
      m2.body = (if tml then init_custom_mapping fla.body dino.body dinoBaseMapping
                 else freezeBody (init_custom_mapping fla.body dino.body dinoBaseMapping)) := by
  simp only [init_from_dino2_base_p14] at h
  refine ⟨freezeStage (transferStage fla dino.body dinoBaseMapping) tml, ?_, ?_⟩
  · cases rp with
    | false =>
      rw [if_neg Bool.false_ne_true] at h
      injection h with h
      exact Or.inr ⟨rfl, h.symm⟩
    | true =>
      rw [if_pos rfl] at h
      injection h with h
      exact Or.inl ⟨rfl, h.symm⟩
  · rw [freezeStage_body]
    cases tml <;> rfl

lemma dino_small_ok {fla : FLAVisionModel} {dino : DinoModel} {tml ie rp : Bool}
    {r : InitResult FLAVisionModel DinoModel}
    (h : init_from_dino2_small_p14 fla dino tml ie rp = Except.ok r) :
    ∃ m2 : FLAVisionModel,
      ((rp = true ∧ r = InitResult.pair m2 dino) ∨ (rp = false ∧ r = InitResult.single m2)) ∧
      m2.body = (if tml then init_custom_mapping fla.body dino.body dinoSmallMapping
                 else freezeBody (init_custom_mapping fla.body dino.body dinoSmallMapping)) := by
  simp only [init_from_dino2_small_p14] at h
  refine ⟨freezeStage (transferStage fla dino.body dinoSmallMapping) tml, ?_, ?_⟩
  · cases rp with
    | false =>
      rw [if_neg Bool.false_ne_true] at h
      injection h with h
      exact Or.inr ⟨rfl, h.symm⟩
    | true =>
      rw [if_pos rfl] at h
      injection h with h
      exact Or.inl ⟨rfl, h.symm⟩
  · rw [freezeStage_body]
    cases tml <;> rfl

lemma siglip_ok {fla : FLAVisionModel} {sg : SiglipModel} {tml ie ih rp : Bool}
    {r : InitResult FLAVisionModel SiglipModel}
    (h : init_from_siglip2_base_p16_224 fla sg tml ie ih rp = Except.ok r) :
    ∃ m4 : FLAVisionModel,
      ((rp = true ∧ r = InitResult.pair m4 sg) ∨ (rp = false ∧ r = InitResult.single m4)) ∧
      m4.body = (if tml then init_custom_mapping fla.body sg.body siglipMapping
                 else freezeBody (init_custom_mapping fla.body sg.body siglipMapping)) ∧
      (SiglipModel.classifier_bias sg = Option.none →
        m4.classifier_bias = fla.classifier_bias) ∧
      (ih = true →
        m4.classifier_weight.data = (SiglipModel.classifier_weight sg).data) := by
  simp only [init_from_siglip2_base_p16_224] at h
  split at h
  · exact Except.noConfusion h
  · rename_i m2 hm2
    split at h
    · exact Except.noConfusion h
    · rename_i m4 hm4
      have h2 : m2.body = (transferStage fla sg.body siglipMapping).body
          ∧ m2.classifier_weight = (transferStage fla sg.body siglipMapping).classifier_weight
          ∧ m2.classifier_bias = (transferStage fla sg.body siglipMapping).classifier_bias := by
        cases ie with
        | false =>
          rw [if_neg Bool.false_ne_true] at hm2
          injection hm2 with hm2
          subst hm2
          exact ⟨rfl, rfl, rfl⟩
        | true =>
          rw [if_pos rfl] at hm2
          exact initEmbeddingStep_ok hm2
      have h4 : m4.body = (freezeStage m2 tml).body
          ∧ (SiglipModel.classifier_bias sg = Option.none →
              m4.classifier_bias = (freezeStage m2 tml).classifier_bias)
          ∧ (ih = true →
              m4.classifier_weight.data = (SiglipModel.classifier_weight sg).data) := by
        cases ih with
        | false =>
          rw [if_neg Bool.false_ne_true] at hm4
          injection hm4 with hm4
          subst hm4
          exact ⟨rfl, fun _ => rfl, fun hc => Bool.noConfusion hc⟩
        | true =>
          rw [if_pos rfl] at hm4
          obtain ⟨hb, hw, hbias⟩ := initHeadStep_ok hm4
          exact ⟨hb, fun hnone => hbias (by rw [hnone]; rfl), fun _ => hw⟩
      refine ⟨m4, ?_, ?_, ?_, ?_⟩
      · cases rp with
        | false =>
          rw [if_neg Bool.false_ne_true] at h
          injection h with h
          exact Or.inr ⟨rfl, h.symm⟩
        | true =>
          rw [if_pos rfl] at h
          injection h with h
          exact Or.inl ⟨rfl, h.symm⟩
      · rw [h4.1, freezeStage_body, h2.1]
        cases tml <;> rfl
      · intro hnone
        rw [h4.2.1 hnone, freezeStage_classifier_bias, h2.2.2]
        rfl
      · exact h4.2.2

lemma clip_ok {fla : FLAVisionModel} {clip : ClipModel} {tml ie rp : Bool}
    {r : InitResult FLAVisionModel ClipModel}
    (h : init_from_clip_base_p16_224 fla clip tml ie rp = Except.ok r) :
    ∃ m3 : FLAVisionModel,
      ((rp = true ∧ r = InitResult.pair m3 clip) ∨ (rp = false ∧ r = InitResult.single m3)) ∧
      m3.body = (if tml then init_custom_mapping fla.body clip.body clipMapping
                 else freezeBody (init_custom_mapping fla.body clip.body clipMapping)) := by
  simp only [init_from_clip_base_p16_224] at h
  split at h
  · exact Except.noConfusion h
  · rename_i m2 hm2
    have h2 : m2.body = (transferStage fla clip.body clipMapping).body := by
      cases ie with
      | false =>
        rw [if_neg Bool.false_ne_true] at hm2
        injection hm2 with hm2
        subst hm2
        rfl
      | true =>
        rw [if_pos rfl] at hm2
        exact (initEmbeddingStep_ok hm2).1
    refine ⟨freezeStage m2 tml, ?_, ?_⟩
    · cases rp with
      | false =>
        rw [if_neg Bool.false_ne_true] at h
        injection h with h
        exact Or.inr ⟨rfl, h.symm⟩
      | true =>
        rw [if_pos rfl] at h
        injection h with h
        exact Or.inl ⟨rfl, h.symm⟩
    · rw [freezeStage_body, h2]
      cases tml <;> rfl

lemma target_of_shape {α β : Type} {r : InitResult α β} {m : α} {src : β} {rp : Bool}
    (h : (rp = true ∧ r = InitResult.pair m src) ∨ (rp = false ∧ r = InitResult.single m)) :
    InitResult.target r = m := by
  rcases h with ⟨-, rfl⟩ | ⟨-, rfl⟩ <;> rfl

lemma shape_cases {α β : Type} {r : InitResult α β} {m : α} {src : β} {rp : Bool}
    (h : (rp = true ∧ r = InitResult.pair m src) ∨ (rp = false ∧ r = InitResult.single m)) :
    (rp = false → ∃ m2, r = InitResult.single m2) ∧
    (rp = true → ∃ m2, r = InitResult.pair m2 src) := by
  rcases h with ⟨hrp, rfl⟩ | ⟨hrp, rfl⟩
  · subst hrp
    exact ⟨fun hf => Bool.noConfusion hf, fun _ => ⟨m, rfl⟩⟩
  · subst hrp
    exact ⟨fun _ => ⟨m, rfl⟩, fun ht => Bool.noConfusion ht⟩

/-- Concrete sample tensors and models for the closed evaluation theorems:
target values 0, source values 7, one body parameter inside a
channel_mixer block. -/
def tensorZero : Tensor := Tensor.mk [1] [0]

def tensorSeven : Tensor := Tensor.mk [1] [7]

def paramZero : Param := Param.mk tensorZero true

def paramSeven : Param := Param.mk tensorSeven true

def flaSample : FLAVisionModel :=
  FLAVisionModel.mk [("blocks.0.channel_mixer.net.0.weight", paramZero)]
    paramZero paramZero paramZero paramZero Option.none

def srcSample : FLAVisionModel :=
  FLAVisionModel.mk [("blocks.0.channel_mixer.net.0.weight", paramSeven)]
    paramSeven paramSeven paramSeven paramSeven Option.none

/-- Result of init_from_fla_vision_und on the samples with train_mlp false
and all other flags false: data copied, channel_mixer gradient disabled. -/
def mSample : FLAVisionModel :=
  FLAVisionModel.mk [("blocks.0.channel_mixer.net.0.weight", Param.mk tensorSeven false)]
    paramZero paramZero paramZero paramZero Option.none

/-- Result of the same run with train_mlp true: data copied, gradient kept. -/
def mSampleT : FLAVisionModel :=
  FLAVisionModel.mk [("blocks.0.channel_mixer.net.0.weight", Param.mk tensorSeven true)]
    paramZero paramZero paramZero paramZero Option.none

/-- Result of the run with train_mlp true and init_head true: additionally
the classifier weight is copied; the classifier bias (source bias None)
stays untouched. -/
def mSampleHead : FLAVisionModel :=
  FLAVisionModel.mk [("blocks.0.channel_mixer.net.0.weight", Param.mk tensorSeven true)]
    paramZero paramZero paramZero (Param.mk tensorSeven true) Option.none

/-- Sample loaded DINOv2 checkpoint with empty body and embedding tensors
differing from the target's. -/
def dinoSample : DinoModel := DinoModel.mk [] paramSeven paramSeven paramSeven

/-- C1 counterexample: with train_mlp = false the feed-forward block is NOT
excluded from the parameter transfer.  At this concrete input the target's
channel_mixer parameter ends with the source's data, different from its own
pre-call data, although the claim as stated says the entry is excluded from
the transfer when the flag is false. -/
theorem C1_counterexample_ffn_still_copied :
    init_from_fla_vision_und flaSample srcSample false false false false
      = Except.ok (InitResult.single mSample) ∧
    bodyDataView mSample.body = bodyDataView srcSample.body ∧
    bodyDataView mSample.body ≠ bodyDataView flaSample.body :=
  ⟨by decide, by decide, by decide⟩

/-- C1 (amended): in every initialization procedure the feed-forward
(channel_mixer) entries are part of the fixed name mapping, so the block is
transferred regardless of train_mlp — the transferred data is identical for
train_mlp false and true — and the flag only controls gradient tracking:
with train_mlp false the channel_mixer parameters are marked non-trainable,
with true their flag is kept. -/
theorem C1_ffn_always_transferred_and_frozen :
    ((("channel_mixer.net.0", "channel_mixer.net.0") ∈ flaVisionUndMapping ∧
      ("channel_mixer.net.2", "channel_mixer.net.2") ∈ flaVisionUndMapping) ∧
     (("channel_mixer.net.0", "mlp.fc1") ∈ dinoBaseMapping ∧
      ("channel_mixer.net.2", "mlp.fc2") ∈ dinoBaseMapping) ∧
     (("channel_mixer.net.0", "mlp.fc1") ∈ dinoSmallMapping ∧
      ("channel_mixer.net.2", "mlp.fc2") ∈ dinoSmallMapping) ∧
     (("channel_mixer.net.0", "mlp.fc1") ∈ siglipMapping ∧
      ("channel_mixer.net.2", "mlp.fc2") ∈ siglipMapping) ∧
     (("channel_mixer.net.0", "mlp.fc1") ∈ clipMapping ∧
      ("channel_mixer.net.2", "mlp.fc2") ∈ clipMapping)) ∧
    (∀ fla src ie ih rp r rt,
      init_from_fla_vision_und fla src false ie ih rp = Except.ok r →
      init_from_fla_vision_und fla src true ie ih rp = Except.ok rt →
      bodyDataView (InitResult.target r).body = bodyDataView (InitResult.target rt).body ∧
      bodyGradSpec fla.body (InitResult.target r).body false ∧
      bodyGradSpec fla.body (InitResult.target rt).body true) ∧
    (∀ fla dino ie rp r rt,
      init_from_dino2_base_p14 fla dino false ie rp = Except.ok r →
      init_from_dino2_base_p14 fla dino true ie rp = Except.ok rt →
      bodyDataView (InitResult.target r).body = bodyDataView (InitResult.target rt).body ∧
      bodyGradSpec fla.body (InitResult.target r).body false ∧
      bodyGradSpec fla.body (InitResult.target rt).body true) ∧
    (∀ fla dino ie rp r rt,
      init_from_dino2_small_p14 fla dino false ie rp = Except.ok r →
      init_from_dino2_small_p14 fla dino true ie rp = Except.ok rt →
      bodyDataView (InitResult.target r).body = bodyDataView (InitResult.target rt).body ∧
      bodyGradSpec fla.body (InitResult.target r).body false ∧
      bodyGradSpec fla.body (InitResult.target rt).body true) ∧
    (∀ fla sg ie ih rp r rt,
      init_from_siglip2_base_p16_224 fla sg false ie ih rp = Except.ok r →
      init_from_siglip2_base_p16_224 fla sg true ie ih rp = Except.ok rt →
      bodyDataView (InitResult.target r).body = bodyDataView (InitResult.target rt).body ∧
      bodyGradSpec fla.body (InitResult.target r).body false ∧
      bodyGradSpec fla.body (InitResult.target rt).body true) ∧
    (∀ fla clip ie rp r rt,
      init_from_clip_base_p16_224 fla clip false ie rp = Except.ok r →
      init_from_clip_base_p16_224 fla clip true ie rp = Except.ok rt →
      bodyDataView (InitResult.target r).body = bodyDataView (InitResult.target rt).body ∧
      bodyGradSpec fla.body (InitResult.target r).body false ∧
      bodyGradSpec fla.body (InitResult.target rt).body true) := by
  refine ⟨by decide, ?_, ?_, ?_, ?_, ?_⟩
  · intro fla src ie ih rp r rt h ht
    obtain ⟨m, hs, hb, -, -⟩ := fla_und_ok h
    obtain ⟨mt, hst, hbt, -, -⟩ := fla_und_ok ht
    rw [target_of_shape hs, target_of_shape hst, hb, hbt,
      if_neg Bool.false_ne_true, if_pos rfl]
    exact ⟨bodyDataView_freezeBody _, bodyGradSpec_freeze_icm _ _ _, bodyGradSpec_icm _ _ _⟩
  · intro fla dino ie rp r rt h ht
    obtain ⟨m, hs, hb⟩ := dino_base_ok h
    obtain ⟨mt, hst, hbt⟩ := dino_base_ok ht
    rw [target_of_shape hs, target_of_shape hst, hb, hbt,
      if_neg Bool.false_ne_true, if_pos rfl]
    exact ⟨bodyDataView_freezeBody _, bodyGradSpec_freeze_icm _ _ _, bodyGradSpec_icm _ _ _⟩
  · intro fla dino ie rp r rt h ht
    obtain ⟨m, hs, hb⟩ := dino_small_ok h
    obtain ⟨mt, hst, hbt⟩ := dino_small_ok ht
    rw [target_of_shape hs, target_of_shape hst, hb, hbt,
      if_neg Bool.false_ne_true, if_pos rfl]
    exact ⟨bodyDataView_freezeBody _, bodyGradSpec_freeze_icm _ _ _, bodyGradSpec_icm _ _ _⟩
  · intro fla sg ie ih rp r rt h ht
    obtain ⟨m, hs, hb, -, -⟩ := siglip_ok h
    obtain ⟨mt, hst, hbt, -, -⟩ := siglip_ok ht
    rw [target_of_shape hs, target_of_shape hst, hb, hbt,
      if_neg Bool.false_ne_true, if_pos rfl]
    exact ⟨bodyDataView_freezeBody _, bodyGradSpec_freeze_icm _ _ _, bodyGradSpec_icm _ _ _⟩
  · intro fla clip ie rp r rt h ht
    obtain ⟨m, hs, hb⟩ := clip_ok h
    obtain ⟨mt, hst, hbt⟩ := clip_ok ht
    rw [target_of_shape hs, target_of_shape hst, hb, hbt,
      if_neg Bool.false_ne_true, if_pos rfl]
    exact ⟨bodyDataView_freezeBody _, bodyGradSpec_freeze_icm _ _ _, bodyGradSpec_icm _ _ _⟩

/-- Witness for the amended C1 at the concrete samples: both runs produce
the same transferred data. -/
theorem C1_ffn_always_transferred_and_frozen_witness :
    init_from_fla_vision_und flaSample srcSample false false false false
      = Except.ok (InitResult.single mSample) ∧
    init_from_fla_vision_und flaSample srcSample true false false false
      = Except.ok (InitResult.single mSampleT) ∧
    bodyDataView mSample.body = bodyDataView mSampleT.body :=
  ⟨by decide, by decide,
   (C1_ffn_always_transferred_and_frozen.2.1 flaSample srcSample false false false
     (InitResult.single mSample) (InitResult.single mSampleT)
     (by decide) (by decide)).1⟩

/-- C2 (code bug evaluation): the DINOv2 procedures accept and document an
init_embedding flag but their bodies never read it.  At this concrete input,
running with init_embedding = true returns the target completely unchanged —
in particular its patch-projection weight, patch-projection bias and
position-embedding tensors — although the source's corresponding tensors
differ, so they are not bit-identical as the claim requires. -/
theorem C2_dino_init_embedding_ignored :
    (init_from_dino2_base_p14 flaSample dinoSample true true false
       = Except.ok (InitResult.single flaSample) ∧
     init_from_dino2_small_p14 flaSample dinoSample true true false
       = Except.ok (InitResult.single flaSample)) ∧
    flaSample.patch_proj_weight.data ≠ dinoSample.patch_proj_weight.data ∧
    flaSample.patch_proj_bias.data ≠ dinoSample.patch_proj_bias.data ∧
    flaSample.position_embeddings.data ≠ dinoSample.position_embeddings.data :=
  ⟨⟨by decide, by decide⟩, by decide, by decide, by decide⟩

/-- C7: after running any of the five initialization procedures, every
target body parameter whose name contains channel_mixer has gradient
tracking disabled when train_mlp was false, and keeps its previous flag
(enabled stays enabled) when train_mlp was true; names are preserved
position-wise.  The fixed-name embedding and classifier parameters never
contain the substring channel_mixer, so the body list covers all affected
parameters. -/
theorem C7_channel_mixer_grad_toggle :
    (∀ fla src tml ie ih rp r,
      init_from_fla_vision_und fla src tml ie ih rp = Except.ok r →
      bodyGradSpec fla.body (InitResult.target r).body tml) ∧
    (∀ fla dino tml ie rp r,
      init_from_dino2_base_p14 fla dino tml ie rp = Except.ok r →
      bodyGradSpec fla.body (InitResult.target r).body tml) ∧
    (∀ fla dino tml ie rp r,
      init_from_dino2_small_p14 fla dino tml ie rp = Except.ok r →
      bodyGradSpec fla.body (InitResult.target r).body tml) ∧
    (∀ fla sg tml ie ih rp r,
      init_from_siglip2_base_p16_224 fla sg tml ie ih rp = Except.ok r →
      bodyGradSpec fla.body (InitResult.target r).body tml) ∧
    (∀ fla clip tml ie rp r,
      init_from_clip_base_p16_224 fla clip tml ie rp = Except.ok r →
      bodyGradSpec fla.body (InitResult.target r).body tml) := by
  refine ⟨?_, ?_, ?_, ?_, ?_⟩
  · intro fla src tml ie ih rp r h
    obtain ⟨m, hs, hb, -, -⟩ := fla_und_ok h
    rw [target_of_shape hs, hb]
    exact bodyGradSpec_ite _ _ _ tml
  · intro fla dino tml ie rp r h
    obtain ⟨m, hs, hb⟩ := dino_base_ok h
    rw [target_of_shape hs, hb]
    exact bodyGradSpec_ite _ _ _ tml
  · intro fla dino tml ie rp r h
    obtain ⟨m, hs, hb⟩ := dino_small_ok h
    rw [target_of_shape hs, hb]
    exact bodyGradSpec_ite _ _ _ tml
  · intro fla sg tml ie ih rp r h
    obtain ⟨m, hs, hb, -, -⟩ := siglip_ok h
    rw [target_of_shape hs, hb]
    exact bodyGradSpec_ite _ _ _ tml
  · intro fla clip tml ie rp r h
    obtain ⟨m, hs, hb⟩ := clip_ok h
    rw [target_of_shape hs, hb]
    exact bodyGradSpec_ite _ _ _ tml

/-- Witness for C7 at the concrete samples with train_mlp false. -/
theorem C7_channel_mixer_grad_toggle_witness :
    init_from_fla_vision_und flaSample srcSample false false false false
      = Except.ok (InitResult.single mSample) ∧
    bodyGradSpec flaSample.body mSample.body false :=
  ⟨by decide,
   C7_channel_mixer_grad_toggle.1 flaSample srcSample false false false false
     (InitResult.single mSample) (by decide)⟩

/-- C8: every initialization procedure returns the mutated target model
alone when return_pretrained is false, and the pair of target and source
model when return_pretrained is true. -/
theorem C8_return_shape :
    (∀ fla src tml ie ih rp r,
      init_from_fla_vision_und fla src tml ie ih rp = Except.ok r →
      (rp = false → ∃ m, r = InitResult.single m) ∧
      (rp = true → ∃ m, r = InitResult.pair m src)) ∧
    (∀ fla dino tml ie rp r,
      init_from_dino2_base_p14 fla dino tml ie rp = Except.ok r →
      (rp = false → ∃ m, r = InitResult.single m) ∧
      (rp = true → ∃ m, r = InitResult.pair m dino)) ∧
    (∀ fla dino tml ie rp r,
      init_from_dino2_small_p14 fla dino tml ie rp = Except.ok r →
      (rp = false → ∃ m, r = InitResult.single m) ∧
      (rp = true → ∃ m, r = InitResult.pair m dino)) ∧
    (∀ fla sg tml ie ih rp r,
      init_from_siglip2_base_p16_224 fla sg tml ie ih rp = Except.ok r →
      (rp = false → ∃ m, r = InitResult.single m) ∧
      (rp = true → ∃ m, r = InitResult.pair m sg)) ∧
    (∀ fla clip tml ie rp r,
      init_from_clip_base_p16_224 fla clip tml ie rp = Except.ok r →
      (rp = false → ∃ m, r = InitResult.single m) ∧
      (rp = true → ∃ m, r = InitResult.pair m clip)) := by
  refine ⟨?_, ?_, ?_, ?_, ?_⟩
  · intro fla src tml ie ih rp r h
    obtain ⟨m, hs, -⟩ := fla_und_ok h
    exact shape_cases hs
  · intro fla dino tml ie rp r h
    obtain ⟨m, hs, -⟩ := dino_base_ok h
    exact shape_cases hs
  · intro fla dino tml ie rp r h
    obtain ⟨m, hs, -⟩ := dino_small_ok h
    exact shape_cases hs
  · intro fla sg tml ie ih rp r h
    obtain ⟨m, hs, -⟩ := siglip_ok h
    exact shape_cases hs
  · intro fla clip tml ie rp r h
    obtain ⟨m, hs, -⟩ := clip_ok h
    exact shape_cases hs

/-- Witness for C8 at the concrete samples with return_pretrained true. -/
theorem C8_return_shape_witness :
    init_from_fla_vision_und flaSample srcSample true false false true
      = Except.ok (InitResult.pair mSampleT srcSample) ∧
    (∃ m, (InitResult.pair mSampleT srcSample : InitResult FLAVisionModel FLAVisionModel)
        = InitResult.pair m srcSample) :=
  ⟨by decide,
   (C8_return_shape.1 flaSample srcSample true false false true
     (InitResult.pair mSampleT srcSample) (by decide)).2 rfl⟩

/-- C10: in the two procedures that take an init_head flag, running with
init_head = true while the source classifier bias is None copies only the
classifier weight: the target's classifier weight receives the source's
data and the target's classifier bias is exactly what it was before the
call. -/
theorem C10_absent_source_bias_copies_weight_only :
    (∀ fla src tml ie rp r, FLAVisionModel.classifier_bias src = Option.none →
      init_from_fla_vision_und fla src tml ie true rp = Except.ok r →
      (InitResult.target r).classifier_bias = fla.classifier_bias ∧
      (InitResult.target r).classifier_weight.data
        = (FLAVisionModel.classifier_weight src).data) ∧
    (∀ fla sg tml ie rp r, SiglipModel.classifier_bias sg = Option.none →
      init_from_siglip2_base_p16_224 fla sg tml ie true rp = Except.ok r →
      (InitResult.target r).classifier_bias = fla.classifier_bias ∧
      (InitResult.target r).classifier_weight.data
        = (SiglipModel.classifier_weight sg).data) := by
  constructor
  · intro fla src tml ie rp r hnone h
    obtain ⟨m, hs, -, hbias, hw⟩ := fla_und_ok h
    rw [target_of_shape hs]
    exact ⟨hbias hnone, hw rfl⟩
  · intro fla sg tml ie rp r hnone h
    obtain ⟨m, hs, -, hbias, hw⟩ := siglip_ok h
    rw [target_of_shape hs]
    exact ⟨hbias hnone, hw rfl⟩

/-- Witness for C10 at the concrete samples: the source classifier bias is
None, the weight is copied, the target bias stays None. -/
theorem C10_absent_source_bias_copies_weight_only_witness :
    FLAVisionModel.classifier_bias srcSample = Option.none ∧
    init_from_fla_vision_und flaSample srcSample true false true false
      = Except.ok (InitResult.single mSampleHead) ∧
    (mSampleHead.classifier_bias = flaSample.classifier_bias ∧
     mSampleHead.classifier_weight.data = srcSample.classifier_weight.data) :=
  ⟨rfl, by decide,
   C10_absent_source_bias_copies_weight_only.1 flaSample srcSample true false false
     (InitResult.single mSampleHead) rfl (by decide)⟩
